import Mathlib

/-!
Verification development for `upload_rwgps.py`, the upload orchestration
engine of the strava-to-rwgps repository.

The Python source is shallowly embedded: pure helpers become Lean
functions on `String`; the network-facing methods of `RWGPSClient` and the
per-file loop body of `main` become functions that take the remote
responses as explicit inputs and return their result together with the
list of observable effects (network requests, ledger-file appends) they
would perform.  Python exceptions become `Except String`.

Python string primitives (`str.endswith`, slicing `s[:-n]`, `str.strip`,
`str.split`, `Path(p).name`) are modelled as explicit functions on the
character list `String.data`, so that every theorem can be evaluated by
the kernel on concrete inputs.
-/

namespace StravaToRwgps

/-- Models Python `s.endswith(suffix)`. -/
def strEndsWith (s suffix : String) : Bool :=
  suffix.data.isSuffixOf s.data

/-- Models Python slicing `s[:-n]` for `n > 0` (drop the last `n` characters;
Python would return `""` when `n ≥ len(s)`, and so does this function). -/
def strDropRight (s : String) (n : Nat) : String :=
  ⟨s.data.take (s.data.length - n)⟩

/-- Characters removed by Python `str.strip()` (ASCII whitespace; the exotic
Unicode cases never occur in the inputs this development reasons about). -/
def isPySpace (c : Char) : Bool :=
  c = ' ' || c = '\t' || c = '\n' || c = '\r' || c = '\x0b' || c = '\x0c'

/-- Models Python `s.strip()`. -/
def pyStrip (s : String) : String :=
  ⟨((s.data.dropWhile isPySpace).reverse.dropWhile isPySpace).reverse⟩

/-- Models Python truthiness of an optional string (`None` and `""` are falsy). -/
def pyTruthy : Option String → Bool
  | none => false
  | some s => s ≠ ""

/-- Models `(row.get(key) or '').strip()`: a missing field behaves as `""`. -/
def pyGetStr (o : Option String) : String :=
  pyStrip (o.getD "")

/-- Auxiliary recursion for `splitOnPipe`. -/
def splitOnPipeAux : List Char → List Char → List String
  | [], acc => [⟨acc.reverse⟩]
  | c :: rest, acc =>
    if c = '|' then ⟨acc.reverse⟩ :: splitOnPipeAux rest []
    else splitOnPipeAux rest (c :: acc)

/-- Models Python `s.split('|')` (on a non-empty string, as used in the source). -/
def splitOnPipe (s : String) : List String :=
  splitOnPipeAux s.data []

/-- Auxiliary recursion for `pathName`: keep the component after the last `/`. -/
def pathNameAux : List Char → List Char → List Char
  | [], acc => acc.reverse
  | c :: rest, acc =>
    if c = '/' then pathNameAux rest []
    else pathNameAux rest (c :: acc)

/-- Models Python `Path(p).name`: the component after the last path separator. -/
def pathName (p : String) : String :=
  ⟨pathNameAux p.data []⟩

/-- The double extensions checked first by the source (lines 382-384). -/
def doubleExts : List String := [".fit.gz", ".gpx.gz", ".tcx.gz"]

/-- The single extensions checked second by the source (lines 385-387). -/
def singleExts : List String := [".fit", ".gpx", ".tcx"]

/-- Models `infer_activity_id_from_filename` (upload_rwgps.py lines 379-388): strip a
double extension if one matches, else a single extension, else return the
name unchanged.  The `for`/`if`/`return` chains become `List.find?`. -/
def infer_activity_id_from_filename (filename : String) : String :=
  match doubleExts.find? (fun ext => strEndsWith filename ext) with
  | some ext => strDropRight filename ext.length
  | none =>
    match singleExts.find? (fun ext => strEndsWith filename ext) with
    | some ext => strDropRight filename ext.length
    | none => filename

/-! ### Basic facts about the string model -/

theorem strEndsWith_append (a b : String) : strEndsWith (a ++ b) b = true := by
  simp [strEndsWith, String.data_append, List.isSuffixOf_iff_suffix,
    List.suffix_append]

theorem strDropRight_append (a b : String) :
    strDropRight (a ++ b) b.length = a := by
  have hlen : b.length = b.data.length := rfl
  simp only [strDropRight, String.data_append, hlen, List.length_append,
    Nat.add_sub_cancel]
  exact congrArg String.mk (List.take_left a.data b.data)

/-- If `a ++ b` ends with `c`, then `b` and `c` are comparable as suffixes. -/
theorem strEndsWith_append_disj {a b c : String}
    (h : strEndsWith (a ++ b) c = true) :
    b.data <:+ c.data ∨ c.data <:+ b.data := by
  simp only [strEndsWith, String.data_append, List.isSuffixOf_iff_suffix] at h
  exact List.suffix_or_suffix_of_suffix (List.suffix_append a.data b.data) h

/-- If `b` and `c` are incomparable as suffixes, `a ++ b` never ends with `c`. -/
theorem strEndsWith_append_false (a : String) {b c : String}
    (h1 : ¬ b.data <:+ c.data) (h2 : ¬ c.data <:+ b.data) :
    strEndsWith (a ++ b) c = false := by
  cases h : strEndsWith (a ++ b) c with
  | false => rfl
  | true => rcases strEndsWith_append_disj h with h' | h' <;> simp_all

/-- C5: for every filename, `infer_activity_id_from_filename` strips exactly
the double extension (`.fit.gz`, `.gpx.gz`, `.tcx.gz`) when the filename ends
in one; otherwise strips exactly the single extension (`.fit`, `.gpx`,
`.tcx`) when it ends in one; otherwise returns the filename unchanged — a
name ending in `.fit.gz` is never treated as ending in `.gz` alone. -/
theorem c5_infer_id_strips_known_extensions :
    (∀ stem : String,
      infer_activity_id_from_filename (stem ++ ".fit.gz") = stem ∧
      infer_activity_id_from_filename (stem ++ ".gpx.gz") = stem ∧
      infer_activity_id_from_filename (stem ++ ".tcx.gz") = stem ∧
      infer_activity_id_from_filename (stem ++ ".fit") = stem ∧
      infer_activity_id_from_filename (stem ++ ".gpx") = stem ∧
      infer_activity_id_from_filename (stem ++ ".tcx") = stem) ∧
    (∀ s : String,
      (∀ ext ∈ doubleExts ++ singleExts, strEndsWith s ext = false) →
      infer_activity_id_from_filename s = s) := by
  constructor
  · intro stem
    refine ⟨?_, ?_, ?_, ?_, ?_, ?_⟩
    · have h1 := strEndsWith_append stem ".fit.gz"
      simpa [infer_activity_id_from_filename, doubleExts, List.find?, h1]
        using strDropRight_append stem ".fit.gz"
    · have h0 := strEndsWith_append_false stem
        (b := ".gpx.gz") (c := ".fit.gz") (by decide) (by decide)
      have h1 := strEndsWith_append stem ".gpx.gz"
      simpa [infer_activity_id_from_filename, doubleExts, List.find?, h0, h1]
        using strDropRight_append stem ".gpx.gz"
    · have h0 := strEndsWith_append_false stem
        (b := ".tcx.gz") (c := ".fit.gz") (by decide) (by decide)
      have h1 := strEndsWith_append_false stem
        (b := ".tcx.gz") (c := ".gpx.gz") (by decide) (by decide)
      have h2 := strEndsWith_append stem ".tcx.gz"
      simpa [infer_activity_id_from_filename, doubleExts, List.find?, h0, h1, h2]
        using strDropRight_append stem ".tcx.gz"
    · have h0 := strEndsWith_append_false stem
        (b := ".fit") (c := ".fit.gz") (by decide) (by decide)
      have h1 := strEndsWith_append_false stem
        (b := ".fit") (c := ".gpx.gz") (by decide) (by decide)
      have h2 := strEndsWith_append_false stem
        (b := ".fit") (c := ".tcx.gz") (by decide) (by decide)
      have h3 := strEndsWith_append stem ".fit"
      simpa [infer_activity_id_from_filename, doubleExts, singleExts,
        List.find?, h0, h1, h2, h3] using strDropRight_append stem ".fit"
    · have h0 := strEndsWith_append_false stem
        (b := ".gpx") (c := ".fit.gz") (by decide) (by decide)
      have h1 := strEndsWith_append_false stem
        (b := ".gpx") (c := ".gpx.gz") (by decide) (by decide)
      have h2 := strEndsWith_append_false stem
        (b := ".gpx") (c := ".tcx.gz") (by decide) (by decide)
      have h3 := strEndsWith_append_false stem
        (b := ".gpx") (c := ".fit") (by decide) (by decide)
      have h4 := strEndsWith_append stem ".gpx"
      simpa [infer_activity_id_from_filename, doubleExts, singleExts,
        List.find?, h0, h1, h2, h3, h4] using strDropRight_append stem ".gpx"
    · have h0 := strEndsWith_append_false stem
        (b := ".tcx") (c := ".fit.gz") (by decide) (by decide)
      have h1 := strEndsWith_append_false stem
        (b := ".tcx") (c := ".gpx.gz") (by decide) (by decide)
      have h2 := strEndsWith_append_false stem
        (b := ".tcx") (c := ".tcx.gz") (by decide) (by decide)
      have h3 := strEndsWith_append_false stem
        (b := ".tcx") (c := ".fit") (by decide) (by decide)
      have h4 := strEndsWith_append_false stem
        (b := ".tcx") (c := ".gpx") (by decide) (by decide)
      have h5 := strEndsWith_append stem ".tcx"
      simpa [infer_activity_id_from_filename, doubleExts, singleExts,
        List.find?, h0, h1, h2, h3, h4, h5] using strDropRight_append stem ".tcx"
  · intro s h
    have h1 : strEndsWith s ".fit.gz" = false := h _ (by simp [doubleExts])
    have h2 : strEndsWith s ".gpx.gz" = false := h _ (by simp [doubleExts])
    have h3 : strEndsWith s ".tcx.gz" = false := h _ (by simp [doubleExts])
    have h4 : strEndsWith s ".fit" = false := h _ (by simp [doubleExts, singleExts])
    have h5 : strEndsWith s ".gpx" = false := h _ (by simp [doubleExts, singleExts])
    have h6 : strEndsWith s ".tcx" = false := h _ (by simp [doubleExts, singleExts])
    simp [infer_activity_id_from_filename, doubleExts, singleExts,
      List.find?, h1, h2, h3, h4, h5, h6]

/-- Witness for C5 at concrete inputs. -/
theorem c5_infer_id_strips_known_extensions_witness :
    infer_activity_id_from_filename ("2734" ++ ".fit.gz") = "2734" ∧
    infer_activity_id_from_filename "readme.txt" = "readme.txt" :=
  ⟨(c5_infer_id_strips_known_extensions.1 "2734").1,
   c5_infer_id_strips_known_extensions.2 "readme.txt" (by decide)⟩

/-! ### Metadata index (upload_rwgps.py lines 318-364) -/

/-- The `ActivityMeta` dataclass (lines 68-73), with paths as strings. -/
structure ActivityMeta where
  activity_id : String
  name : String
  description : String
  media_paths : List String
deriving Repr, DecidableEq

/-- One CSV row as seen through `csv.DictReader`: each `row.get(column)`
yields an optional string. -/
structure CsvRow where
  activityId : Option String
  activityName : Option String
  activityDescription : Option String
  media : Option String
  filename : Option String
deriving Repr, DecidableEq

/-- The metadata mapping, modelled as an association list looked up by
first match; keys are unique because insertion is insert-if-absent. -/
def dictLookup (k : String) : List (String × ActivityMeta) → Option ActivityMeta
  | [] => none
  | (k', v) :: rest => if k' = k then some v else dictLookup k rest

/-- Python `mapping.setdefault(k, v)`: insert only if the key is absent. -/
def setdefault (m : List (String × ActivityMeta)) (k : String) (v : ActivityMeta) :
    List (String × ActivityMeta) :=
  match dictLookup k m with
  | some _ => m
  | none => m ++ [(k, v)]

/-- The extension list of the filename-stripping loop (line 358). -/
def allExts : List String := [".fit.gz", ".gpx.gz", ".tcx.gz", ".fit", ".gpx", ".tcx"]

/-- The `ActivityMeta` built from one CSV row (lines 332-349).  Path joining
`media_base / part` is modelled as string concatenation with `/`. -/
def rowMeta (mediaBase : String) (row : CsvRow) : ActivityMeta :=
  let act_id := pyGetStr row.activityId
  let name := pyGetStr row.activityName
  let description := pyGetStr row.activityDescription
  let media_field := pyGetStr row.media
  let media_paths : List String :=
    if media_field = "" then []
    else (splitOnPipe media_field).map (fun part => mediaBase ++ "/" ++ part)
  { activity_id := act_id
    name := if name = "" then "Activity " ++ act_id else name
    description := description
    media_paths := media_paths }

/-- The stripped declared identifier of a row (line 332). -/
def rowActId (row : CsvRow) : String :=
  pyGetStr row.activityId

/-- The filename-derived key a row contributes, if any (lines 353-363):
basename of the `Filename` column with the first matching extension of
`allExts` removed, provided the filename is present and the stem non-empty. -/
def rowDerivedKey (row : CsvRow) : Option String :=
  let filename := pyGetStr row.filename
  if filename = "" then none
  else
    let base := pathName filename
    match allExts.find? (fun ext => strEndsWith base ext) with
    | none => none
    | some ext =>
      let file_id := strDropRight base ext.length
      if file_id = "" then none else some file_id

/-- Processing of one CSV row inside the reader loop (lines 331-363): skip
rows with an empty declared identifier, `setdefault` under the declared
identifier, then `setdefault` under the derived filename key if present. -/
def processRow (mediaBase : String) (mapping : List (String × ActivityMeta))
    (row : CsvRow) : List (String × ActivityMeta) :=
  let act_id := rowActId row
  if act_id = "" then mapping
  else
    let meta := rowMeta mediaBase row
    let mapping := setdefault mapping act_id meta
    match rowDerivedKey row with
    | none => mapping
    | some file_id => setdefault mapping file_id meta

/-- Models `load_activity_metadata` (lines 318-364), over an already-parsed list of
CSV rows. -/
def load_activity_metadata (rows : List CsvRow) (mediaBase : String) :
    List (String × ActivityMeta) :=
  rows.foldl (processRow mediaBase) []

/-! ### Lookup lemmas for the insert-if-absent mapping -/

theorem dictLookup_append (k : String) (m₁ m₂ : List (String × ActivityMeta)) :
    dictLookup k (m₁ ++ m₂) =
      match dictLookup k m₁ with
      | some v => some v
      | none => dictLookup k m₂ := by
  induction m₁ with
  | nil => simp [dictLookup]
  | cons p rest ih =>
    by_cases h : p.1 = k <;> simp [dictLookup, h, ih]

theorem dictLookup_setdefault_self {m : List (String × ActivityMeta)}
    {k : String} (v : ActivityMeta) (h : dictLookup k m = none) :
    dictLookup k (setdefault m k v) = some v := by
  simp [setdefault, h, dictLookup_append, dictLookup]

theorem dictLookup_setdefault_ne {k k' : String} (hne : k' ≠ k)
    (m : List (String × ActivityMeta)) (v : ActivityMeta) :
    dictLookup k (setdefault m k' v) = dictLookup k m := by
  cases h : dictLookup k' m with
  | some w => simp [setdefault, h]
  | none =>
    simp only [setdefault, h, dictLookup_append, dictLookup, hne, if_false]
    cases dictLookup k m <;> simp

theorem dictLookup_setdefault_preserve {m : List (String × ActivityMeta)}
    {k : String} {v : ActivityMeta} (k' : String) (w : ActivityMeta)
    (h : dictLookup k m = some v) :
    dictLookup k (setdefault m k' w) = some v := by
  by_cases hk : k' = k
  · subst hk
    cases h' : dictLookup k' m with
    | some u => simpa [setdefault, h'] using h
    | none => rw [h'] at h; exact absurd h (by simp)
  · rw [dictLookup_setdefault_ne hk, h]

/-- A binding, once present, survives processing any further row. -/
theorem dictLookup_processRow_preserve {m : List (String × ActivityMeta)}
    {k : String} {v : ActivityMeta} (mediaBase : String) (row : CsvRow)
    (h : dictLookup k m = some v) :
    dictLookup k (processRow mediaBase m row) = some v := by
  unfold processRow
  by_cases h0 : rowActId row = ""
  · simpa [h0]
  · simp only [h0, if_false]
    cases hd : rowDerivedKey row with
    | none => simpa [hd] using dictLookup_setdefault_preserve _ _ h
    | some fid =>
      simp only [hd]
      exact dictLookup_setdefault_preserve fid _
        (dictLookup_setdefault_preserve _ _ h)

/-- A binding, once present, survives the rest of the fold. -/
theorem dictLookup_foldl_preserve {k : String} {v : ActivityMeta}
    (mediaBase : String) (rows : List CsvRow)
    {m : List (String × ActivityMeta)} (h : dictLookup k m = some v) :
    dictLookup k (rows.foldl (processRow mediaBase) m) = some v := by
  induction rows generalizing m with
  | nil => simpa
  | cons row rest ih =>
    exact ih (dictLookup_processRow_preserve mediaBase row h)

/-- Processing a row whose declared identifier is unbound binds it to the
row's record. -/
theorem dictLookup_processRow_actId (mediaBase : String) (row : CsvRow)
    {m : List (String × ActivityMeta)} (hne : rowActId row ≠ "")
    (h : dictLookup (rowActId row) m = none) :
    dictLookup (rowActId row) (processRow mediaBase m row) =
      some (rowMeta mediaBase row) := by
  unfold processRow
  simp only [hne, if_false]
  have hb := dictLookup_setdefault_self (m := m) (rowMeta mediaBase row) h
  cases hd : rowDerivedKey row with
  | none => simpa [hd] using hb
  | some fid => simpa [hd] using dictLookup_setdefault_preserve fid _ hb

/-- A derived filename key is never the empty string (guard on line 361). -/
theorem rowDerivedKey_ne_empty {row : CsvRow} {k : String}
    (h : rowDerivedKey row = some k) : k ≠ "" := by
  unfold rowDerivedKey at h
  by_cases h1 : pyGetStr row.filename = ""
  · simp [h1] at h
  · simp only [h1, if_false] at h
    cases h2 : allExts.find?
        (fun ext => strEndsWith (pathName (pyGetStr row.filename)) ext) with
    | none => simp [h2] at h
    | some ext =>
      simp only [h2] at h
      by_cases h3 :
          strDropRight (pathName (pyGetStr row.filename)) ext.length = ""
      · simp [h3] at h
      · simp only [h3, if_false, Option.some.injEq] at h
        exact h ▸ h3

/-- Processing a row that derives an unbound filename key binds that key to
the row's record. -/
theorem dictLookup_processRow_derived (mediaBase : String) (row : CsvRow)
    {m : List (String × ActivityMeta)} {k : String}
    (hne : rowActId row ≠ "") (hd : rowDerivedKey row = some k)
    (h : dictLookup k m = none) :
    dictLookup k (processRow mediaBase m row) = some (rowMeta mediaBase row) := by
  unfold processRow
  simp only [hne, if_false, hd]
  by_cases hk : rowActId row = k
  · have hb := dictLookup_setdefault_self (m := m) (rowMeta mediaBase row)
      (hk ▸ h)
    exact dictLookup_setdefault_preserve k _ (hk ▸ hb)
  · have h1 : dictLookup k (setdefault m (rowActId row) (rowMeta mediaBase row))
        = none := by rw [dictLookup_setdefault_ne hk, h]
    exact dictLookup_setdefault_self _ h1

/-- C7 counterexample: two rows declare the same identifier `A`.  The claim
says indexing under the declared identifier is unconditional, so lookup of
`A` should return the second row's record; the source uses
`mapping.setdefault(act_id, meta)`, so the first row's record stays. -/
theorem c7_counterexample_declared_id_not_unconditional :
    rowActId ⟨some "A", some "two", none, none, none⟩ = "A" ∧
    dictLookup "A"
        (load_activity_metadata
          [⟨some "A", some "one", none, none, none⟩,
           ⟨some "A", some "two", none, none, none⟩] "media") ≠
      some (rowMeta "media" ⟨some "A", some "two", none, none, none⟩) := by
  constructor
  · decide
  · decide

/-- C7 amended: a record is indexed under its declared identifier with
insert-if-absent semantics (like the derived keys); lookup by a record's own
identifier returns that record provided no earlier row already bound that
key. -/
theorem c7_amended_declared_id_first_writer
    (mediaBase : String) (pre post : List CsvRow) (row : CsvRow)
    (hne : rowActId row ≠ "")
    (h : dictLookup (rowActId row) (load_activity_metadata pre mediaBase) = none) :
    dictLookup (rowActId row)
        (load_activity_metadata (pre ++ row :: post) mediaBase) =
      some (rowMeta mediaBase row) := by
  unfold load_activity_metadata at *
  rw [List.foldl_append, List.foldl_cons]
  exact dictLookup_foldl_preserve mediaBase post
    (dictLookup_processRow_actId mediaBase row hne h)

/-- Witness for the amended C7 at a concrete input. -/
theorem c7_amended_declared_id_first_writer_witness :
    dictLookup "7"
        (load_activity_metadata
          ([] ++ ⟨some "7", some "Ride", none, none, none⟩ :: []) "media") =
      some (rowMeta "media" ⟨some "7", some "Ride", none, none, none⟩) :=
  c7_amended_declared_id_first_writer "media" [] []
    ⟨some "7", some "Ride", none, none, none⟩ (by decide) (by decide)

/-- C6 counterexample: rows two and three both derive the stem key `42`, but
an earlier row already bound `42` through its declared identifier, so lookup
of `42` does not return the first deriving row's record, contradicting the
claim's "for every input ledger". -/
theorem c6_counterexample_earlier_binding_wins :
    rowDerivedKey ⟨some "a", some "one", none, none, some "42.fit"⟩ = some "42" ∧
    rowDerivedKey ⟨some "b", some "two", none, none, some "42.fit"⟩ = some "42" ∧
    dictLookup "42"
        (load_activity_metadata
          [⟨some "42", some "zero", none, none, none⟩,
           ⟨some "a", some "one", none, none, some "42.fit"⟩,
           ⟨some "b", some "two", none, none, some "42.fit"⟩] "media") ≠
      some (rowMeta "media" ⟨some "a", some "one", none, none, some "42.fit"⟩) := by
  refine ⟨by decide, by decide, by decide⟩

/-- C6 amended: the derived stem is computed by stripping the first matching
extension in the order `.fit.gz`, `.gpx.gz`, `.tcx.gz`, `.fit`, `.gpx`,
`.tcx`, and the record is indexed under it only if that key is not already
present; when two rows derive the same stem key and no earlier row bound
that key, lookup of the key returns the first deriving row's record. -/
theorem c6_amended_derived_key_first_writer
    (mediaBase : String) (pre mid post : List CsvRow) (rowA rowB : CsvRow)
    (k : String) (hne : rowActId rowA ≠ "")
    (hA : rowDerivedKey rowA = some k) (_hB : rowDerivedKey rowB = some k)
    (h : dictLookup k (load_activity_metadata pre mediaBase) = none) :
    dictLookup k
        (load_activity_metadata (pre ++ rowA :: (mid ++ rowB :: post)) mediaBase) =
      some (rowMeta mediaBase rowA) := by
  unfold load_activity_metadata at *
  rw [List.foldl_append, List.foldl_cons]
  exact dictLookup_foldl_preserve mediaBase (mid ++ rowB :: post)
    (dictLookup_processRow_derived mediaBase rowA hne hA h)

/-- Witness for the amended C6 at a concrete input: two rows derive the stem
`9`, the first deriving row's record wins. -/
theorem c6_amended_derived_key_first_writer_witness :
    dictLookup "9"
        (load_activity_metadata
          ([] ++ ⟨some "a", some "one", none, none, some "9.fit"⟩ ::
            ([] ++ ⟨some "b", some "two", none, none, some "9.fit.gz"⟩ :: []))
          "media") =
      some (rowMeta "media" ⟨some "a", some "one", none, none, some "9.fit"⟩) :=
  c6_amended_derived_key_first_writer "media" [] [] []
    ⟨some "a", some "one", none, none, some "9.fit"⟩
    ⟨some "b", some "two", none, none, some "9.fit.gz"⟩
    "9" (by decide) (by decide) (by decide) (by decide)

/-- The built index never contains the empty string as a key. -/
theorem dictLookup_empty_load (rows : List CsvRow) (mediaBase : String) :
    dictLookup "" (load_activity_metadata rows mediaBase) = none := by
  unfold load_activity_metadata
  have step : ∀ (m : List (String × ActivityMeta)) (row : CsvRow),
      dictLookup "" m = none →
      dictLookup "" (processRow mediaBase m row) = none := by
    intro m row h
    unfold processRow
    by_cases h0 : rowActId row = ""
    · simpa [h0]
    · simp only [h0, if_false]
      have h1 : dictLookup ""
          (setdefault m (rowActId row) (rowMeta mediaBase row)) = none := by
        rw [dictLookup_setdefault_ne h0, h]
      cases hd : rowDerivedKey row with
      | none => simpa [hd] using h1
      | some fid =>
        simp only [hd]
        rw [dictLookup_setdefault_ne (rowDerivedKey_ne_empty hd), h1]
  have : ∀ (m : List (String × ActivityMeta)),
      dictLookup "" m = none →
      dictLookup "" (rows.foldl (processRow mediaBase) m) = none := by
    induction rows with
    | nil => intro m h; simpa
    | cons row rest ih => intro m h; exact ih _ (step m row h)
  exact this [] rfl

/-! ### Client state, effects and remote responses

The `RWGPSClient` methods are embedded as functions that take the remote
responses they would receive as explicit inputs and return their result
together with the list of observable effects (network requests and
ledger-file appends) they perform.  `base_url`, `version` and `api_key`
only feed into URLs and request parameters and are omitted; `dry_run` is
passed explicitly since `main` gives the client the same flag it uses
itself. -/

/-- Observable side effects of the engine. -/
inductive Effect where
  | authRequest
  | tripPost (fileName : String)
  | pollGet (taskId : Int)
  | photoPost (path : String)
  | ledgerAppend (activityId : String)
deriving Repr, DecidableEq

/-- Mutable client fields relevant to the engine (`auth_token` is the only
one the methods mutate). -/
structure ClientState where
  auth_token : Option String
  email : Option String
  password : Option String
deriving Repr, DecidableEq

/-- What the authentication endpoint would answer: HTTP status and the
`user.auth_token` field of the JSON body (`none` when absent). -/
structure AuthResponse where
  status : Nat
  authToken : Option String
deriving Repr, DecidableEq

/-- Models `RWGPSClient.ensure_auth` (lines 91-113).  Returns the new `auth_token`
on success; a raised `RuntimeError` becomes `Except.error`. -/
def ensure_auth (dryRun : Bool) (c : ClientState) (resp : AuthResponse) :
    Except String (Option String) × List Effect :=
  if pyTruthy c.auth_token then (.ok c.auth_token, [])
  else if ¬ (pyTruthy c.email && pyTruthy c.password) then
    (.error "Email/password required to obtain auth_token.", [])
  else if dryRun then (.ok (some "DUMMY_TOKEN"), [])
  else if resp.status ≠ 200 then (.error "Auth failed", [.authRequest])
  else if ¬ pyTruthy resp.authToken then
    (.error "Auth token not found in response", [.authRequest])
  else (.ok resp.authToken, [.authRequest])

/-- Sentinel for a queued task that reported `duplicate` (line 65). -/
def DUPLICATE_TRIP : Int := -2

/-- One entry of a task's `associated_objects`.  `tripId` collapses
`(obj.get('trip') or {}).get('id')`: `none` covers both a missing trip
object and a trip object without an `id`. -/
structure AssocObj where
  objType : Option String
  tripId : Option Int
deriving Repr, DecidableEq

/-- One element of the `queued_tasks` array of a task-status response. -/
structure QTask where
  status : Option String
  response_code : Option String
  message : Option String
  associated_objects : List AssocObj
deriving Repr, DecidableEq

/-- Parsed body of a 200 task-status response; `data.get('queued_tasks') or
[]` makes a missing array indistinguishable from an empty one. -/
structure StatusData where
  queued_tasks : List QTask
deriving Repr, DecidableEq

/-- What one poll iteration's `requests.get` yields: a raised exception, or
an HTTP response whose body may fail to parse as JSON (`body = none`). -/
inductive TickResult where
  | reqException
  | resp (status : Nat) (body : Option StatusData)
deriving Repr, DecidableEq

/-- The trip-object scan of the success branch (lines 233-239): first
`associated_objects` entry of type `trip` with a truthy id (`0` is falsy in
Python and is skipped like a missing id). -/
def findTripId : List AssocObj → Option Int
  | [] => none
  | obj :: rest =>
    if obj.objType = some "trip" then
      match obj.tripId with
      | some i => if i = 0 then findTripId rest else some i
      | none => findTripId rest
    else findTripId rest

/-- One iteration of the polling loop body (lines 201-250): `some v` means
the function returns `v`; `none` means the loop sleeps and continues. -/
def tickStep (t : TickResult) : Option (Option Int) :=
  match t with
  | .reqException => none
  | .resp status body =>
    if status ≠ 200 then none
    else
      match body with
      | none => none
      | some data =>
        match data.queued_tasks with
        | [] => none
        | task :: _ =>
          match task.response_code with
          | some "success" =>
            match findTripId task.associated_objects with
            | some tid => some (some tid)
            | none => none
          | some "duplicate" => some (some DUPLICATE_TRIP)
          | some "error" => some none
          | some "failed" => some none
          | _ => none

/-- Result of `poll_task_for_trip`: the Python return value, the number of
poll requests performed (`poll_count`), and whether the deadline elapsed. -/
structure PollResult where
  retval : Option Int
  ticks : Nat
  timedOut : Bool
deriving Repr, DecidableEq

/-- Models `RWGPSClient.poll_task_for_trip` (lines 177-252).  Time is discrete: the
caller-supplied deadline admits exactly `ticks.length` loop iterations, each
consuming one `TickResult`; an exhausted list models the deadline elapsing
(return `None`).  The dry-run check sits at the top of the loop body exactly
as in the source. -/
def pollLoop (dryRun : Bool) (taskId : Int) (ticks : List TickResult)
    (count : Nat) : PollResult × List Effect :=
  match ticks with
  | [] => (⟨none, count, true⟩, [])
  | t :: rest =>
    if dryRun then (⟨some (-1), count, false⟩, [])
    else
      match tickStep t with
      | some v => (⟨v, count + 1, false⟩, [.pollGet taskId])
      | none =>
        ((pollLoop dryRun taskId rest (count + 1)).1,
         .pollGet taskId :: (pollLoop dryRun taskId rest (count + 1)).2)

/-- Entry point of the polling loop with `poll_count = 0`. -/
def poll_task_for_trip (dryRun : Bool) (taskId : Int)
    (ticks : List TickResult) : PollResult × List Effect :=
  pollLoop dryRun taskId ticks 0

/-- Body of the trip-submission response: non-JSON, JSON that is not a
dict (`isinstance` check on line 170), or a dict with an optional
`task_id`. -/
inductive UploadBody where
  | notJson
  | jsonNonDict
  | jsonDict (task_id : Option Int)
deriving Repr, DecidableEq

/-- What the trip-submission endpoint would answer. -/
structure UploadResponse where
  status : Nat
  body : UploadBody
deriving Repr, DecidableEq

/-- The remote responses and local filesystem facts consumed while
processing one activity file. -/
structure FileWorld where
  authResp : AuthResponse
  uploadResp : UploadResponse
  ticks : List TickResult
  photoStatus : String → Nat
  fileExists : String → Bool

/-- Models `RWGPSClient.upload_trip_from_file` (lines 116-175), with `poll = True`
as `main` always passes.  Reading (and for `.gz` files decompressing) the
activity file is local I/O and contributes no effect.  Returns the Python
return value plus the updated client. -/
def upload_trip_from_file (dryRun : Bool) (c : ClientState) (w : FileWorld)
    (fileName : String) : Except String (Option Int × ClientState) × List Effect :=
  match ensure_auth dryRun c w.authResp with
  | (.error e, effs) => (.error e, effs)
  | (.ok tok, effs) =>
    let c := { c with auth_token := tok }
    if dryRun then (.ok (some (-1), c), effs)
    else
      let effs := effs ++ [.tripPost fileName]
      if ¬ (w.uploadResp.status = 200 ∨ w.uploadResp.status = 201 ∨
            w.uploadResp.status = 202) then
        (.ok (none, c), effs)
      else
        match w.uploadResp.body with
        | .notJson => (.ok (none, c), effs)
        | .jsonNonDict => (.ok (none, c), effs)
        | .jsonDict task_id =>
          match task_id with
          | some tid =>
            if tid = 0 then (.ok (none, c), effs)
            else
              let r := poll_task_for_trip dryRun tid w.ticks
              (.ok (r.1.retval, c), effs ++ r.2)
          | none => (.ok (none, c), effs)

/-- Models `RWGPSClient.upload_photo` (lines 254-300).  Opening the photo file is
local I/O; the dry-run branch returns `True` without posting. -/
def upload_photo (dryRun : Bool) (c : ClientState) (w : FileWorld)
    (photoPath : String) : Except String (Bool × ClientState) × List Effect :=
  if !w.fileExists photoPath then (.ok (false, c), [])
  else
    match ensure_auth dryRun c w.authResp with
    | (.error e, effs) => (.error e, effs)
    | (.ok tok, effs) =>
      let c := { c with auth_token := tok }
      if dryRun then (.ok (true, c), effs)
      else
        let effs := effs ++ [.photoPost photoPath]
        if w.photoStatus photoPath = 200 ∨ w.photoStatus photoPath = 201 ∨
            w.photoStatus photoPath = 202 then
          (.ok (true, c), effs)
        else (.ok (false, c), effs)

/-- Models `RWGPSClient.upload_media_for_trip` (lines 302-314): per-photo
exceptions are caught and only logged. -/
def upload_media_for_trip (dryRun : Bool) (c : ClientState) (w : FileWorld)
    (media : List String) : ClientState × List Effect :=
  media.foldl
    (fun acc m =>
      match upload_photo dryRun acc.1 w m with
      | (.ok (_, c2), effs) => (c2, acc.2 ++ effs)
      | (.error _, effs) => (acc.1, acc.2 ++ effs))
    (c, [])

/-! ### Orchestrator (`main`, lines 458-505) -/

/-- The resolved command-line/environment configuration the loop reads. -/
structure RunConfig where
  dry_run : Bool
  force : Bool
  target_ids : Option (List String)
deriving Repr, DecidableEq

/-- Aggregate outcome counters of the run. -/
structure Counters where
  successes : Nat
  skipped : Nat
  errors : Nat
deriving Repr, DecidableEq

/-- State threaded through the per-file loop: the (token-caching) client
and the counters.  The startup ledger set is read-only and passed
separately; `append_uploaded` writes only to the file, never back into the
in-memory set. -/
structure RunState where
  client : ClientState
  counters : Counters
deriving Repr, DecidableEq

/-- The allow-list check `if target_ids and act_id not in target_ids` (line
463): Python truthiness makes `None` and the empty set both inactive. -/
def excludedByFilter (targetIds : Option (List String)) (actId : String) : Bool :=
  match targetIds with
  | none => false
  | some l => ¬ l.isEmpty && ¬ l.contains actId

/-- One iteration of the per-file loop (lines 461-499). -/
def processFile (cfg : RunConfig) (mm : List (String × ActivityMeta))
    (uploaded : List String) (st : RunState) (fileName : String)
    (w : FileWorld) : RunState × List Effect :=
  let act_id := infer_activity_id_from_filename fileName
  if excludedByFilter cfg.target_ids act_id then (st, [])
  else if !cfg.force && uploaded.contains act_id then
    ({ st with counters := { st.counters with
        skipped := st.counters.skipped + 1 } }, [])
  else
    match dictLookup act_id mm with
    | none =>
      ({ st with counters := { st.counters with
          skipped := st.counters.skipped + 1 } }, [])
    | some meta =>
      match upload_trip_from_file cfg.dry_run st.client w fileName with
      | (.error _, effs) =>
        ({ st with counters := { st.counters with
            errors := st.counters.errors + 1 } }, effs)
      | (.ok (trip_id, c2), effs) =>
        if trip_id = some DUPLICATE_TRIP then
          ({ client := c2
             counters := { st.counters with
               skipped := st.counters.skipped + 1 } },
           effs ++ if cfg.dry_run then [] else [.ledgerAppend act_id])
        else
          match trip_id with
          | some tid =>
            let mr := upload_media_for_trip cfg.dry_run c2 w
              (meta.media_paths.filter w.fileExists)
            ({ client := mr.1
               counters := { st.counters with
                 successes := st.counters.successes + 1 } },
             effs ++ mr.2 ++
               if ¬ cfg.dry_run ∧ tid ≠ -1 then [.ledgerAppend act_id] else [])
          | none =>
            ({ client := c2
               counters := { st.counters with
                 errors := st.counters.errors + 1 } }, effs)

/-- The whole per-file loop over the discovered files, each paired with the
remote responses its processing would consume. -/
def runFiles (cfg : RunConfig) (mm : List (String × ActivityMeta))
    (uploaded : List String) : List (String × FileWorld) → RunState →
    RunState × List Effect
  | [], st => (st, [])
  | (f, w) :: rest, st =>
    let r := processFile cfg mm uploaded st f w
    let r2 := runFiles cfg mm uploaded rest r.1
    (r2.1, r.2 ++ r2.2)

/-! ### Claim theorems about the orchestrator -/

/-- C1: for every activity identifier already present in the uploaded
ledger at startup, when force-mode is not requested (and the `--only`
allow-list does not silently exclude the file before the ledger check,
line 463), processing that activity performs zero network calls, leaves
the ledger unchanged for that identifier (no append effect at all), and
increments the skipped count by one. -/
theorem c1_ledger_skip_no_network (cfg : RunConfig)
    (mm : List (String × ActivityMeta)) (uploaded : List String)
    (st : RunState) (fileName : String) (w : FileWorld)
    (hforce : cfg.force = false)
    (hmem : uploaded.contains (infer_activity_id_from_filename fileName) = true)
    (hfilter : excludedByFilter cfg.target_ids
      (infer_activity_id_from_filename fileName) = false) :
    processFile cfg mm uploaded st fileName w =
      ({ st with counters := { st.counters with
          skipped := st.counters.skipped + 1 } }, []) := by
  unfold processFile
  simp at hmem
  simp [hforce, hmem, hfilter]

/-- Witness for C1 at a concrete input. -/
theorem c1_ledger_skip_no_network_witness :
    processFile ⟨false, false, none⟩ [] ["42"]
        ⟨⟨none, some "e", some "pw"⟩, ⟨0, 0, 0⟩⟩ "42.fit"
        ⟨⟨200, none⟩, ⟨200, .notJson⟩, [], fun _ => 200, fun _ => false⟩ =
      (⟨⟨none, some "e", some "pw"⟩, ⟨0, 1, 0⟩⟩, []) :=
  c1_ledger_skip_no_network ⟨false, false, none⟩ [] ["42"]
    ⟨⟨none, some "e", some "pw"⟩, ⟨0, 0, 0⟩⟩ "42.fit"
    ⟨⟨200, none⟩, ⟨200, .notJson⟩, [], fun _ => 200, fun _ => false⟩
    rfl (by decide) (by decide)

/-- C10: the built metadata index never contains the empty string as a key
(rows with an empty declared identifier are dropped and an empty derived
stem is never inserted); consequently a discovered file whose inferred
identifier is empty and which is not in the ledger is counted as skipped
for missing metadata, with zero network calls. -/
theorem c10_empty_key_never_indexed (rows : List CsvRow) (mediaBase : String)
    (cfg : RunConfig) (uploaded : List String) (st : RunState)
    (fileName : String) (w : FileWorld) :
    dictLookup "" (load_activity_metadata rows mediaBase) = none ∧
    (infer_activity_id_from_filename fileName = "" →
     uploaded.contains "" = false →
     excludedByFilter cfg.target_ids "" = false →
     processFile cfg (load_activity_metadata rows mediaBase) uploaded st
         fileName w =
       ({ st with counters := { st.counters with
           skipped := st.counters.skipped + 1 } }, [])) := by
  refine ⟨dictLookup_empty_load rows mediaBase, ?_⟩
  intro hinf hmem hfilter
  unfold processFile
  rw [hinf]
  simp [hfilter, hmem, dictLookup_empty_load rows mediaBase]

/-- Witness for C10 at a concrete input: the file `.fit` has the empty
inferred identifier. -/
theorem c10_empty_key_never_indexed_witness :
    dictLookup ""
        (load_activity_metadata [⟨some "", some "x", none, none, some ".fit"⟩]
          "media") = none ∧
    processFile ⟨false, false, none⟩
        (load_activity_metadata [⟨some "", some "x", none, none, some ".fit"⟩]
          "media") []
        ⟨⟨none, some "e", some "pw"⟩, ⟨0, 0, 0⟩⟩ ".fit"
        ⟨⟨200, none⟩, ⟨200, .notJson⟩, [], fun _ => 200, fun _ => false⟩ =
      (⟨⟨none, some "e", some "pw"⟩, ⟨0, 1, 0⟩⟩, []) := by
  have h := c10_empty_key_never_indexed
    [⟨some "", some "x", none, none, some ".fit"⟩] "media"
    ⟨false, false, none⟩ []
    ⟨⟨none, some "e", some "pw"⟩, ⟨0, 0, 0⟩⟩ ".fit"
    ⟨⟨200, none⟩, ⟨200, .notJson⟩, [], fun _ => 200, fun _ => false⟩
  exact ⟨h.1, h.2 (by decide) (by decide) (by decide)⟩

/-! ### Polling lemmas -/

/-- Every effect of the polling loop is a status request for the task. -/
theorem pollLoop_effects_pollGet (dryRun : Bool) (taskId : Int)
    (ticks : List TickResult) (count : Nat) :
    ∀ e ∈ (pollLoop dryRun taskId ticks count).2, e = Effect.pollGet taskId := by
  cases dryRun with
  | true => cases ticks <;> simp [pollLoop]
  | false =>
    induction ticks generalizing count with
    | nil => simp [pollLoop]
    | cons t rest ih =>
      intro e he
      cases hs : tickStep t with
      | some v =>
        simp [pollLoop, hs] at he
        exact he
      | none =>
        simp [pollLoop, hs] at he
        rcases he with he | he
        · exact he
        · exact ih (count + 1) e he

/-- If no tick is terminal, the loop polls once per tick and times out. -/
theorem pollLoop_timeout (taskId : Int) (ticks : List TickResult)
    (count : Nat) (h : ∀ t ∈ ticks, tickStep t = none) :
    pollLoop false taskId ticks count =
      (⟨none, count + ticks.length, true⟩,
       List.replicate ticks.length (Effect.pollGet taskId)) := by
  induction ticks generalizing count with
  | nil => simp [pollLoop]
  | cons t rest ih =>
    have ht : tickStep t = none := h t (by simp)
    have hrest : ∀ t ∈ rest, tickStep t = none := fun t' ht' => h t' (by simp [ht'])
    unfold pollLoop
    simp only [Bool.false_eq_true, if_false, ht, ih (count + 1) hrest]
    refine Prod.ext ?_ ?_
    · simp [PollResult.mk.injEq]; omega
    · simp [List.replicate_succ]

/-- C8: a poll tick whose response code is `success` but whose associated
objects contain no trip identifier leaves the loop polling; in the two-tick
scenario where the trip object appears on the second tick, the outcome is
success with that trip identifier after exactly two poll requests. -/
theorem c8_success_without_trip_keeps_polling :
    (∀ (stat msg : Option String) (objs : List AssocObj) (rest : List QTask),
      findTripId objs = none →
      tickStep (.resp 200 (some ⟨⟨stat, some "success", msg, objs⟩ :: rest⟩)) =
        none) ∧
    (∀ (taskId tid : Int) (stat msg : Option String) (objs1 : List AssocObj),
      findTripId objs1 = none → tid ≠ 0 →
      poll_task_for_trip false taskId
          [.resp 200 (some ⟨[⟨stat, some "success", msg, objs1⟩]⟩),
           .resp 200 (some ⟨[⟨stat, some "success", msg,
             [⟨some "trip", some tid⟩]⟩]⟩)] =
        (⟨some tid, 2, false⟩, [.pollGet taskId, .pollGet taskId])) := by
  constructor
  · intro stat msg objs rest hno
    simp [tickStep, hno]
  · intro taskId tid stat msg objs1 hno htid
    unfold poll_task_for_trip pollLoop pollLoop
    simp [tickStep, hno, findTripId, htid]

/-- Witness for C8 at a concrete input. -/
theorem c8_success_without_trip_keeps_polling_witness :
    poll_task_for_trip false 5
        [.resp 200 (some ⟨[⟨some "completed", some "success", none,
           [⟨some "route", none⟩]⟩]⟩),
         .resp 200 (some ⟨[⟨some "completed", some "success", none,
           [⟨some "trip", some 777⟩]⟩]⟩)] =
      (⟨some 777, 2, false⟩, [.pollGet 5, .pollGet 5]) :=
  c8_success_without_trip_keeps_polling.2 5 777 (some "completed") none
    [⟨some "route", none⟩] (by decide) (by decide)

/-! ### Dry-run effect lemmas -/

/-- In dry-run mode authentication never reaches the network. -/
theorem ensure_auth_dry_effects (c : ClientState) (r : AuthResponse) :
    (ensure_auth true c r).2 = [] := by
  unfold ensure_auth
  split_ifs <;> simp_all

/-- Authentication performs at most one network request. -/
theorem ensure_auth_effects (d : Bool) (c : ClientState) (r : AuthResponse) :
    (ensure_auth d c r).2 = [] ∨ (ensure_auth d c r).2 = [Effect.authRequest] := by
  unfold ensure_auth
  split_ifs <;> simp

/-- In dry-run mode the trip submission performs no network request. -/
theorem upload_trip_dry_effects (c : ClientState) (w : FileWorld)
    (fileName : String) : (upload_trip_from_file true c w fileName).2 = [] := by
  unfold upload_trip_from_file
  have ha := ensure_auth_dry_effects c w.authResp
  cases h : ensure_auth true c w.authResp with
  | mk res effs =>
    rw [h] at ha
    simp only at ha
    cases res <;> simp [ha]

/-- In dry-run mode a photo upload performs no network request. -/
theorem upload_photo_dry_effects (c : ClientState) (w : FileWorld)
    (photoPath : String) : (upload_photo true c w photoPath).2 = [] := by
  unfold upload_photo
  by_cases hex : w.fileExists photoPath
  · have ha := ensure_auth_dry_effects c w.authResp
    cases h : ensure_auth true c w.authResp with
    | mk res effs =>
      rw [h] at ha
      simp only at ha
      cases res <;> simp [hex, ha]
  · simp [hex]

/-- In dry-run mode the media-upload loop performs no network request. -/
theorem upload_media_dry_effects (w : FileWorld) :
    ∀ (media : List String) (c : ClientState),
      (upload_media_for_trip true c w media).2 = [] := by
  intro media
  unfold upload_media_for_trip
  induction media with
  | nil => intro c; rfl
  | cons m rest ih =>
    intro c
    rw [List.foldl_cons]
    have hp := upload_photo_dry_effects c w m
    cases h : upload_photo true c w m with
    | mk res effs =>
      rw [h] at hp
      simp only at hp
      cases res with
      | error e => simpa [h, hp] using ih c
      | ok pr =>
        obtain ⟨b, c2⟩ := pr
        simpa [h, hp] using ih c2

/-- In dry-run mode processing one file produces no effect at all. -/
theorem processFile_dry_effects (cfg : RunConfig)
    (mm : List (String × ActivityMeta)) (uploaded : List String)
    (st : RunState) (fileName : String) (w : FileWorld)
    (hdry : cfg.dry_run = true) :
    (processFile cfg mm uploaded st fileName w).2 = [] := by
  simp only [processFile]
  rw [hdry]
  by_cases hex : excludedByFilter cfg.target_ids
      (infer_activity_id_from_filename fileName) = true
  · rw [if_pos hex]
  · rw [if_neg hex]
    by_cases hskip : (!cfg.force &&
        uploaded.contains (infer_activity_id_from_filename fileName)) = true
    · rw [if_pos hskip]
    · rw [if_neg hskip]
      cases hmeta : dictLookup (infer_activity_id_from_filename fileName) mm with
      | none => rfl
      | some meta =>
        have hu := upload_trip_dry_effects st.client w fileName
        cases h : upload_trip_from_file true st.client w fileName with
        | mk res effs =>
          rw [h] at hu
          simp only at hu
          cases res with
          | error e => simpa using hu
          | ok pr =>
            obtain ⟨trip_id, c2⟩ := pr
            by_cases hdup : trip_id = some DUPLICATE_TRIP
            · simp [hdup, hu]
            · cases trip_id with
              | some tid =>
                simp [hdup, hu, upload_media_dry_effects]
              | none => simp [hu]

/-- In dry-run mode the whole run produces no effect at all. -/
theorem runFiles_dry_effects (cfg : RunConfig)
    (mm : List (String × ActivityMeta)) (uploaded : List String)
    (files : List (String × FileWorld)) (st : RunState)
    (hdry : cfg.dry_run = true) :
    (runFiles cfg mm uploaded files st).2 = [] := by
  induction files generalizing st with
  | nil => rfl
  | cons fw rest ih =>
    obtain ⟨f, w⟩ := fw
    unfold runFiles
    simp [processFile_dry_effects cfg mm uploaded st f w hdry, ih]

/-- C4: in dry-run mode, for every input set of activity files, the program
performs zero mutating network requests (no trip submission, no media
submission, no poll of a real task) and never writes to the uploaded-ledger
file. -/
theorem c4_dry_run_no_mutations (cfg : RunConfig)
    (mm : List (String × ActivityMeta)) (uploaded : List String)
    (files : List (String × FileWorld)) (st : RunState)
    (hdry : cfg.dry_run = true) (f p i : String) (t : Int) :
    Effect.tripPost f ∉ (runFiles cfg mm uploaded files st).2 ∧
    Effect.photoPost p ∉ (runFiles cfg mm uploaded files st).2 ∧
    Effect.pollGet t ∉ (runFiles cfg mm uploaded files st).2 ∧
    Effect.ledgerAppend i ∉ (runFiles cfg mm uploaded files st).2 := by
  rw [runFiles_dry_effects cfg mm uploaded files st hdry]
  simp

/-- Witness for C4 at a concrete input: a dry run over one file with
metadata present submits nothing and appends nothing. -/
theorem c4_dry_run_no_mutations_witness :
    Effect.tripPost "9.fit" ∉
      (runFiles ⟨true, false, none⟩
        (load_activity_metadata [⟨some "9", some "Ride", none, none, none⟩] "m")
        [] [("9.fit",
          ⟨⟨200, some "tok"⟩, ⟨200, .jsonDict (some 5)⟩, [], fun _ => 200,
           fun _ => false⟩)]
        ⟨⟨none, some "e", some "pw"⟩, ⟨0, 0, 0⟩⟩).2 ∧
    Effect.ledgerAppend "9" ∉
      (runFiles ⟨true, false, none⟩
        (load_activity_metadata [⟨some "9", some "Ride", none, none, none⟩] "m")
        [] [("9.fit",
          ⟨⟨200, some "tok"⟩, ⟨200, .jsonDict (some 5)⟩, [], fun _ => 200,
           fun _ => false⟩)]
        ⟨⟨none, some "e", some "pw"⟩, ⟨0, 0, 0⟩⟩).2 := by
  have h := c4_dry_run_no_mutations ⟨true, false, none⟩
    (load_activity_metadata [⟨some "9", some "Ride", none, none, none⟩] "m")
    [] [("9.fit",
      ⟨⟨200, some "tok"⟩, ⟨200, .jsonDict (some 5)⟩, [], fun _ => 200,
       fun _ => false⟩)]
    ⟨⟨none, some "e", some "pw"⟩, ⟨0, 0, 0⟩⟩ rfl "9.fit" "x" "9" 5
  exact ⟨h.1, h.2.2.2⟩

/-- When authentication succeeds and the trip submission is accepted with a
JSON body carrying a truthy task id, the upload hands over to the poller
and returns its result. -/
theorem upload_trip_reaches_poll (c : ClientState) (w : FileWorld)
    (fileName : String) {tok : Option String} {aEffs : List Effect} {tid : Int}
    (hauth : ensure_auth false c w.authResp = (.ok tok, aEffs))
    (hstat : w.uploadResp.status = 200 ∨ w.uploadResp.status = 201 ∨
      w.uploadResp.status = 202)
    (hbody : w.uploadResp.body = .jsonDict (some tid)) (htid : tid ≠ 0) :
    upload_trip_from_file false c w fileName =
      (.ok ((poll_task_for_trip false tid w.ticks).1.retval,
            { c with auth_token := tok }),
       aEffs ++ [Effect.tripPost fileName] ++
         (poll_task_for_trip false tid w.ticks).2) := by
  simp only [upload_trip_from_file, hauth]
  rw [if_neg (by simp : ¬ (false = true))]
  rw [if_neg (not_not_intro hstat), hbody]
  dsimp only
  rw [if_neg htid]

/-- C2: for every activity whose task poll yields the duplicate outcome, the
orchestrator appends the activity identifier to the uploaded ledger, never
invokes the media-upload path for that activity, and counts the activity as
skipped, not as an error.  (With dry-run active the premise is
unsatisfiable: the poller is never invoked on a real task, and C4 covers
the absence of ledger writes.) -/
theorem c2_duplicate_recorded_and_skipped (cfg : RunConfig)
    (mm : List (String × ActivityMeta)) (uploaded : List String)
    (st : RunState) (fileName : String) (w : FileWorld) (meta : ActivityMeta)
    (tok : Option String) (aEffs : List Effect) (tid : Int)
    (hex : excludedByFilter cfg.target_ids
      (infer_activity_id_from_filename fileName) = false)
    (hskip : (!cfg.force &&
      uploaded.contains (infer_activity_id_from_filename fileName)) = false)
    (hmeta : dictLookup (infer_activity_id_from_filename fileName) mm = some meta)
    (hdry : cfg.dry_run = false)
    (hauth : ensure_auth false st.client w.authResp = (.ok tok, aEffs))
    (hstat : w.uploadResp.status = 200 ∨ w.uploadResp.status = 201 ∨
      w.uploadResp.status = 202)
    (hbody : w.uploadResp.body = .jsonDict (some tid)) (htid : tid ≠ 0)
    (hpoll : (poll_task_for_trip false tid w.ticks).1.retval =
      some DUPLICATE_TRIP) :
    processFile cfg mm uploaded st fileName w =
      ({ client := { st.client with auth_token := tok },
         counters := { st.counters with
           skipped := st.counters.skipped + 1 } },
       aEffs ++ [Effect.tripPost fileName] ++
         (poll_task_for_trip false tid w.ticks).2 ++
         [Effect.ledgerAppend (infer_activity_id_from_filename fileName)]) ∧
    ∀ p, Effect.photoPost p ∉ (processFile cfg mm uploaded st fileName w).2 := by
  have hup := upload_trip_reaches_poll st.client w fileName hauth hstat hbody htid
  have h1 : processFile cfg mm uploaded st fileName w =
      ({ client := { st.client with auth_token := tok },
         counters := { st.counters with
           skipped := st.counters.skipped + 1 } },
       aEffs ++ [Effect.tripPost fileName] ++
         (poll_task_for_trip false tid w.ticks).2 ++
         [Effect.ledgerAppend (infer_activity_id_from_filename fileName)]) := by
    simp only [processFile]
    rw [hdry]
    rw [if_neg (by rw [hex]; simp)]
    rw [if_neg (by rw [hskip]; simp)]
    rw [hmeta]
    dsimp only
    rw [hup]
    dsimp only
    rw [hpoll]
    rw [if_pos rfl]
    simp
  refine ⟨h1, ?_⟩
  intro p hmem
  rw [h1] at hmem
  have ha := ensure_auth_effects false st.client w.authResp
  rw [hauth] at ha
  simp only at ha
  simp only [List.mem_append, List.mem_singleton] at hmem
  rcases hmem with ((hm | hm) | hm) | hm
  · rcases ha with ha | ha <;> (rw [ha] at hm; simp at hm)
  · simp at hm
  · have := pollLoop_effects_pollGet false tid w.ticks 0 _ hm
    simp at this
  · simp at hm

/-- Witness for C2 at a concrete input: one duplicate tick, identifier
appended, activity skipped, no photo posted. -/
theorem c2_duplicate_recorded_and_skipped_witness :
    processFile ⟨false, false, none⟩
        (load_activity_metadata [⟨some "3", some "R", none, none, none⟩] "m")
        [] ⟨⟨none, some "e", some "pw"⟩, ⟨0, 0, 0⟩⟩ "3.fit"
        ⟨⟨200, some "tok"⟩, ⟨201, .jsonDict (some 7)⟩,
         [.resp 200 (some ⟨[⟨some "done", some "duplicate", none, []⟩]⟩)],
         fun _ => 200, fun _ => false⟩ =
      (⟨⟨some "tok", some "e", some "pw"⟩, ⟨0, 1, 0⟩⟩,
       [.authRequest, .tripPost "3.fit", .pollGet 7, .ledgerAppend "3"]) ∧
    Effect.photoPost "p.jpg" ∉
      (processFile ⟨false, false, none⟩
        (load_activity_metadata [⟨some "3", some "R", none, none, none⟩] "m")
        [] ⟨⟨none, some "e", some "pw"⟩, ⟨0, 0, 0⟩⟩ "3.fit"
        ⟨⟨200, some "tok"⟩, ⟨201, .jsonDict (some 7)⟩,
         [.resp 200 (some ⟨[⟨some "done", some "duplicate", none, []⟩]⟩)],
         fun _ => 200, fun _ => false⟩).2 := by
  have h := c2_duplicate_recorded_and_skipped ⟨false, false, none⟩
    (load_activity_metadata [⟨some "3", some "R", none, none, none⟩] "m")
    [] ⟨⟨none, some "e", some "pw"⟩, ⟨0, 0, 0⟩⟩ "3.fit"
    ⟨⟨200, some "tok"⟩, ⟨201, .jsonDict (some 7)⟩,
     [.resp 200 (some ⟨[⟨some "done", some "duplicate", none, []⟩]⟩)],
     fun _ => 200, fun _ => false⟩
    (rowMeta "m" ⟨some "3", some "R", none, none, none⟩)
    (some "tok") [.authRequest] 7
    (by decide) (by decide) (by decide) rfl rfl (by decide) rfl (by decide) rfl
  exact ⟨h.1.trans (by decide), h.2 "p.jpg"⟩

/-- C3: for every activity whose task status never reaches a terminal
response code before the caller-supplied deadline elapses (every admitted
tick is non-terminal), the polling outcome is timed out with return value
`None`, the activity identifier is not appended to the ledger, and the
run's error count increases by exactly one for that activity. -/
theorem c3_timeout_is_error_without_ledger (cfg : RunConfig)
    (mm : List (String × ActivityMeta)) (uploaded : List String)
    (st : RunState) (fileName : String) (w : FileWorld) (meta : ActivityMeta)
    (tok : Option String) (aEffs : List Effect) (tid : Int)
    (hex : excludedByFilter cfg.target_ids
      (infer_activity_id_from_filename fileName) = false)
    (hskip : (!cfg.force &&
      uploaded.contains (infer_activity_id_from_filename fileName)) = false)
    (hmeta : dictLookup (infer_activity_id_from_filename fileName) mm = some meta)
    (hdry : cfg.dry_run = false)
    (hauth : ensure_auth false st.client w.authResp = (.ok tok, aEffs))
    (hstat : w.uploadResp.status = 200 ∨ w.uploadResp.status = 201 ∨
      w.uploadResp.status = 202)
    (hbody : w.uploadResp.body = .jsonDict (some tid)) (htid : tid ≠ 0)
    (hticks : ∀ t ∈ w.ticks, tickStep t = none) :
    (poll_task_for_trip false tid w.ticks).1 =
      ⟨none, w.ticks.length, true⟩ ∧
    processFile cfg mm uploaded st fileName w =
      ({ client := { st.client with auth_token := tok },
         counters := { st.counters with
           errors := st.counters.errors + 1 } },
       aEffs ++ Effect.tripPost fileName ::
         List.replicate w.ticks.length (Effect.pollGet tid)) ∧
    ∀ i, Effect.ledgerAppend i ∉ (processFile cfg mm uploaded st fileName w).2 := by
  have hup := upload_trip_reaches_poll st.client w fileName hauth hstat hbody htid
  have hp : poll_task_for_trip false tid w.ticks =
      (⟨none, w.ticks.length, true⟩,
       List.replicate w.ticks.length (Effect.pollGet tid)) := by
    have := pollLoop_timeout tid w.ticks 0 hticks
    simpa [poll_task_for_trip] using this
  have h0 : (poll_task_for_trip false tid w.ticks).1 =
      ⟨none, w.ticks.length, true⟩ := by rw [hp]
  have h1 : processFile cfg mm uploaded st fileName w =
      ({ client := { st.client with auth_token := tok },
         counters := { st.counters with
           errors := st.counters.errors + 1 } },
       aEffs ++ Effect.tripPost fileName ::
         List.replicate w.ticks.length (Effect.pollGet tid)) := by
    simp only [processFile]
    rw [hdry]
    rw [if_neg (by rw [hex]; simp)]
    rw [if_neg (by rw [hskip]; simp)]
    rw [hmeta]
    dsimp only
    rw [hup, hp]
    dsimp only
    rw [if_neg (by simp [DUPLICATE_TRIP])]
    simp
  refine ⟨h0, h1, ?_⟩
  intro i hmem
  rw [h1] at hmem
  have ha := ensure_auth_effects false st.client w.authResp
  rw [hauth] at ha
  simp only at ha
  simp only [List.mem_append, List.mem_cons] at hmem
  rcases hmem with hm | hm | hm
  · rcases ha with ha | ha <;> (rw [ha] at hm; simp at hm)
  · simp at hm
  · exact absurd (List.eq_of_mem_replicate hm) (by simp)

/-- Witness for C3 at a concrete input: two non-terminal ticks, then the
deadline; one error, nothing appended. -/
theorem c3_timeout_is_error_without_ledger_witness :
    (poll_task_for_trip false 7
        [.resp 200 (some ⟨[⟨some "queued", some "pending", none, []⟩]⟩),
         .reqException]).1 = ⟨none, 2, true⟩ ∧
    processFile ⟨false, false, none⟩
        (load_activity_metadata [⟨some "3", some "R", none, none, none⟩] "m")
        [] ⟨⟨none, some "e", some "pw"⟩, ⟨0, 0, 0⟩⟩ "3.fit"
        ⟨⟨200, some "tok"⟩, ⟨201, .jsonDict (some 7)⟩,
         [.resp 200 (some ⟨[⟨some "queued", some "pending", none, []⟩]⟩),
          .reqException],
         fun _ => 200, fun _ => false⟩ =
      (⟨⟨some "tok", some "e", some "pw"⟩, ⟨0, 0, 1⟩⟩,
       [.authRequest, .tripPost "3.fit", .pollGet 7, .pollGet 7]) ∧
    Effect.ledgerAppend "3" ∉
      (processFile ⟨false, false, none⟩
        (load_activity_metadata [⟨some "3", some "R", none, none, none⟩] "m")
        [] ⟨⟨none, some "e", some "pw"⟩, ⟨0, 0, 0⟩⟩ "3.fit"
        ⟨⟨200, some "tok"⟩, ⟨201, .jsonDict (some 7)⟩,
         [.resp 200 (some ⟨[⟨some "queued", some "pending", none, []⟩]⟩),
          .reqException],
         fun _ => 200, fun _ => false⟩).2 := by
  have h := c3_timeout_is_error_without_ledger ⟨false, false, none⟩
    (load_activity_metadata [⟨some "3", some "R", none, none, none⟩] "m")
    [] ⟨⟨none, some "e", some "pw"⟩, ⟨0, 0, 0⟩⟩ "3.fit"
    ⟨⟨200, some "tok"⟩, ⟨201, .jsonDict (some 7)⟩,
     [.resp 200 (some ⟨[⟨some "queued", some "pending", none, []⟩]⟩),
      .reqException],
     fun _ => 200, fun _ => false⟩
    (rowMeta "m" ⟨some "3", some "R", none, none, none⟩)
    (some "tok") [.authRequest] 7
    (by decide) (by decide) (by decide) rfl rfl (by decide) rfl (by decide)
    (by decide)
  exact ⟨h.1, h.2.1.trans (by decide), h.2.2 "3"⟩

/-- C9 counterexample: a run over two files in which authentication fails
(HTTP 500) while processing the first activity, yet the second activity is
still processed — its trip submission goes out, authentication is
re-attempted and succeeds, and the run ends with one success and one error.
This contradicts "once authentication has failed, no further activity is
processed in that run": the orchestrator catches the exception per
activity (line 483) and continues the loop. -/
theorem c9_counterexample_auth_failure_not_fatal :
    (ensure_auth false ⟨none, some "e", some "pw"⟩ ⟨500, none⟩).1 =
      Except.error "Auth failed" ∧
    (runFiles ⟨false, false, none⟩
        (load_activity_metadata
          [⟨some "1", some "Ride1", none, none, none⟩,
           ⟨some "2", some "Ride2", none, none, none⟩] "m")
        []
        [("1.fit", ⟨⟨500, none⟩, ⟨200, .notJson⟩, [], fun _ => 200,
            fun _ => false⟩),
         ("2.fit", ⟨⟨200, some "tok"⟩, ⟨200, .jsonDict (some 5)⟩,
            [.resp 200 (some ⟨[⟨some "complete", some "success", none,
              [⟨some "trip", some 99⟩]⟩]⟩)],
            fun _ => 200, fun _ => false⟩)]
        ⟨⟨none, some "e", some "pw"⟩, ⟨0, 0, 0⟩⟩).1.counters = ⟨1, 0, 1⟩ ∧
    Effect.tripPost "2.fit" ∈
      (runFiles ⟨false, false, none⟩
        (load_activity_metadata
          [⟨some "1", some "Ride1", none, none, none⟩,
           ⟨some "2", some "Ride2", none, none, none⟩] "m")
        []
        [("1.fit", ⟨⟨500, none⟩, ⟨200, .notJson⟩, [], fun _ => 200,
            fun _ => false⟩),
         ("2.fit", ⟨⟨200, some "tok"⟩, ⟨200, .jsonDict (some 5)⟩,
            [.resp 200 (some ⟨[⟨some "complete", some "success", none,
              [⟨some "trip", some 99⟩]⟩]⟩)],
            fun _ => 200, fun _ => false⟩)]
        ⟨⟨none, some "e", some "pw"⟩, ⟨0, 0, 0⟩⟩).2 :=
  ⟨rfl, by decide, by decide⟩

/-- C9 amended: an authentication failure is an error local to the activity
being processed — the exception is caught, the activity is counted as one
error, the ledger and client are untouched, and the orchestrator continues
with the remaining activities (each of which re-attempts authentication,
which may succeed). -/
theorem c9_amended_auth_failure_local (cfg : RunConfig)
    (mm : List (String × ActivityMeta)) (uploaded : List String)
    (st : RunState) (f : String) (w : FileWorld)
    (rest : List (String × FileWorld)) (meta : ActivityMeta) (msg : String)
    (aEffs : List Effect)
    (hex : excludedByFilter cfg.target_ids
      (infer_activity_id_from_filename f) = false)
    (hskip : (!cfg.force &&
      uploaded.contains (infer_activity_id_from_filename f)) = false)
    (hmeta : dictLookup (infer_activity_id_from_filename f) mm = some meta)
    (hauth : ensure_auth cfg.dry_run st.client w.authResp =
      (.error msg, aEffs)) :
    runFiles cfg mm uploaded ((f, w) :: rest) st =
      ((runFiles cfg mm uploaded rest
          { st with counters := { st.counters with
            errors := st.counters.errors + 1 } }).1,
       aEffs ++ (runFiles cfg mm uploaded rest
          { st with counters := { st.counters with
            errors := st.counters.errors + 1 } }).2) := by
  have hpf : processFile cfg mm uploaded st f w =
      ({ st with counters := { st.counters with
          errors := st.counters.errors + 1 } }, aEffs) := by
    simp only [processFile]
    rw [if_neg (by rw [hex]; simp)]
    rw [if_neg (by rw [hskip]; simp)]
    rw [hmeta]
    dsimp only
    simp only [upload_trip_from_file, hauth]
  simp only [runFiles]
  rw [hpf]

/-- Witness for the amended C9 at a concrete input: one file, auth fails,
one error counted, run continues (with an empty remainder). -/
theorem c9_amended_auth_failure_local_witness :
    runFiles ⟨false, false, none⟩
        (load_activity_metadata [⟨some "1", some "Ride1", none, none, none⟩]
          "m")
        [] [("1.fit", ⟨⟨500, none⟩, ⟨200, .notJson⟩, [], fun _ => 200,
          fun _ => false⟩)]
        ⟨⟨none, some "e", some "pw"⟩, ⟨0, 0, 0⟩⟩ =
      (⟨⟨none, some "e", some "pw"⟩, ⟨0, 0, 1⟩⟩, [Effect.authRequest]) := by
  have h := c9_amended_auth_failure_local ⟨false, false, none⟩
    (load_activity_metadata [⟨some "1", some "Ride1", none, none, none⟩] "m")
    [] ⟨⟨none, some "e", some "pw"⟩, ⟨0, 0, 0⟩⟩ "1.fit"
    ⟨⟨500, none⟩, ⟨200, .notJson⟩, [], fun _ => 200, fun _ => false⟩
    [] (rowMeta "m" ⟨some "1", some "Ride1", none, none, none⟩)
    "Auth failed" [.authRequest]
    (by decide) (by decide) rfl rfl
  exact h.trans (by decide)

end StravaToRwgps
